import Mathlib

/-!
Verification of the command-to-card pipeline of a Discord YouTube
recommendation bot (`main.go`): identifier extraction (`getVideoID`),
metadata mapping into a `recommend` record, rich-embed rendering
(`sendError` / `sendRecommend`) and the dispatching `messageHandler`.

Go strings are embedded as Lean `String`; every string operation the
program performs (splitting, cutting, prefix tests) is defined here by
structural recursion on the character list so that all statements
evaluate inside the kernel.
-/

/-- Model of Go `strings.Split(s, sep)` for a one-character separator:
split around every occurrence of `sep`, keeping empty pieces. -/
def splitOnChar (sep : Char) : List Char → List (List Char)
  | [] => [[]]
  | c :: rest =>
    let r := splitOnChar sep rest
    if c = sep then [] :: r
    else
      match r with
      | h :: t => (c :: h) :: t
      | [] => [[c]]

/-- Model of Go `strings.Cut(s, sep)` for a one-character separator:
(before, after, found) around the first occurrence of `sep`. -/
def cutChar (sep : Char) : List Char → List Char × List Char × Bool
  | [] => ([], [], false)
  | c :: rest =>
    if c = sep then ([], rest, true)
    else
      let r := cutChar sep rest
      (c :: r.1, r.2.1, r.2.2)

/-- Model of Go `strings.Split(s, " ")` as used by the dispatcher. -/
def stringsSplit (s : String) (sep : Char) : List String :=
  (splitOnChar sep s.data).map String.mk

/-- Model of Go `strings.TrimPrefix(s, p)`: drop `p` when it is a prefix,
otherwise return the list unchanged. -/
def trimPfxList (p s : List Char) : List Char :=
  if List.isPrefixOf p s then s.drop p.length else s

/-- Model of Go `net/url`'s control-byte rejection: `Parse` refuses any URL
holding a byte below 0x20 or equal to 0x7f. -/
def containsCTLByte (s : String) : Bool :=
  s.data.any fun c => c.toNat < 32 || c.toNat == 127

/-- The one component of Go's `url.URL` that `getVideoID` reads. -/
structure URL where
  rawQuery : String
deriving DecidableEq

/-- Model of Go `net/url.Parse` restricted to what `getVideoID` reads: the
`RawQuery` component, which Go takes as everything after the first `?` of
the text with the fragment (everything after the first `#`) removed.
Failure modes modelled: a control byte anywhere in the URL, and a leading
`:` (missing protocol scheme). The Go parser has further failure modes
(invalid percent escapes in the path, malformed host or port) that no
claim below depends on; they are not modelled. -/
def urlParse (s : String) : Except String URL :=
  if containsCTLByte s then
    .error "net/url: invalid control character in URL"
  else if (match s.data with | ':' :: _ => true | _ => false) then
    .error "missing protocol scheme"
  else
    let beforeFrag := (cutChar '#' s.data).1
    let q := cutChar '?' beforeFrag
    .ok ⟨String.mk (if q.2.2 then q.2.1 else [])⟩

/-- Value of a hexadecimal digit, as in Go `net/url.unhex`. -/
def hexDigitVal (c : Char) : Option Nat :=
  if '0' ≤ c ∧ c ≤ '9' then some (c.toNat - 48)
  else if 'a' ≤ c ∧ c ≤ 'f' then some (c.toNat - 87)
  else if 'A' ≤ c ∧ c ≤ 'F' then some (c.toNat - 55)
  else none

/-- Model of Go `net/url.QueryUnescape`: `%XY` becomes the byte it names,
`+` becomes a space, an invalid or truncated escape is an error. -/
def queryUnescapeList : List Char → Option (List Char)
  | [] => some []
  | '%' :: h :: l :: rest => do
    let hv ← hexDigitVal h
    let lv ← hexDigitVal l
    let tail ← queryUnescapeList rest
    pure (Char.ofNat (16 * hv + lv) :: tail)
  | '%' :: _ => none
  | '+' :: rest => (queryUnescapeList rest).map (' ' :: ·)
  | c :: rest => (queryUnescapeList rest).map (c :: ·)

/-- Model of Go `net/url.ParseQuery` as consumed through `URL.Query()`
(errors ignored): pieces split on `&`, empty pieces and pieces holding a
`;` skipped, each piece cut at its first `=`, key and value unescaped,
pieces whose key or value fails to unescape skipped. Order preserved. -/
def parseQueryPairs (query : String) : List (String × String) :=
  (splitOnChar '&' query.data).filterMap fun piece =>
    if piece = [] then none
    else if piece.contains ';' then none
    else
      let kv := cutChar '=' piece
      match queryUnescapeList kv.1, queryUnescapeList kv.2.1 with
      | some k, some v => some (String.mk k, String.mk v)
      | _, _ => none

/-- Model of Go `url.Values.Get`: the first value recorded for `key`, or
the empty string when the key is absent. -/
def valuesGet (vs : List (String × String)) (key : String) : String :=
  match vs.filter (fun p => p.1 = key) with
  | [] => ""
  | p :: _ => p.2

/-- `getVideoID` from `main.go`: parse the text as a URL; a non-empty `v`
query parameter wins; otherwise the remainder after a literal
`https://youtu.be/` prefix; otherwise the error `URL Schema not valid`.
A URL-parse failure is returned as `Failed to parse URL : ...`. -/
def getVideoID (s : String) : Except String String :=
  match urlParse s with
  | .error e => .error ("Failed to parse URL : " ++ e)
  | .ok u =>
    let videoID := valuesGet (parseQueryPairs u.rawQuery) "v"
    if videoID ≠ "" then .ok videoID
    else if List.isPrefixOf "https://youtu.be/".data s.data then
      .ok (String.mk (trimPfxList "https://youtu.be/".data s.data))
    else
      .error "URL Schema not valid"

example : getVideoID "https://www.youtube.com/watch?v=abc123" = .ok "abc123" := rfl
example : getVideoID "https://youtu.be/xyz" = .ok "xyz" := rfl
example : getVideoID "https://youtu.be/" = .ok "" := rfl
example : getVideoID "not-a-url" = .error "URL Schema not valid" := rfl
example : getVideoID "https://youtu.be/abc?v=zzz" = .ok "zzz" := rfl

/-- The `senseyeio/duration` record: years, months, weeks, days and the
time components hours (`TH`), minutes (`TM`), seconds (`TS`). -/
structure Duration where
  Y : Nat := 0
  M : Nat := 0
  W : Nat := 0
  D : Nat := 0
  TH : Nat := 0
  TM : Nat := 0
  TS : Nat := 0
deriving DecidableEq

/-- The zero-valued duration, Go's `Duration{}`. -/
def zeroDuration : Duration := {}

/-- Numeric value of a digit run. -/
def digitsVal (l : List Char) : Nat :=
  l.foldl (fun a c => 10 * a + (c.toNat - 48)) 0

/-- One optional `(\d+u)?` group of the `senseyeio/duration` regex: consume
a digit run followed by the unit letter `u`, or consume nothing. -/
def optNumUnit (u : Char) (l : List Char) : Nat × List Char :=
  let ds := l.takeWhile Char.isDigit
  match l.dropWhile Char.isDigit with
  | c :: rest => if ds ≠ [] ∧ c = u then (digitsVal ds, rest) else (0, l)
  | [] => (0, l)

/-- The full form `^P(\d+Y)?(\d+M)?(\d+D)?(T(\d+H)?(\d+M)?(\d+S)?)?$` of
`senseyeio/duration.ParseISO8601`. -/
def parseFullDuration (l : List Char) : Option Duration :=
  match l with
  | 'P' :: rest =>
    let y := optNumUnit 'Y' rest
    let mo := optNumUnit 'M' y.2
    let d := optNumUnit 'D' mo.2
    match d.2 with
    | [] => some { Y := y.1, M := mo.1, D := d.1 }
    | 'T' :: r4 =>
      let h := optNumUnit 'H' r4
      let mi := optNumUnit 'M' h.2
      let s := optNumUnit 'S' mi.2
      if s.2 = [] then
        some { Y := y.1, M := mo.1, D := d.1, TH := h.1, TM := mi.1, TS := s.1 }
      else none
    | _ => none
  | _ => none

/-- The week form `^P(\d+W)$` of `senseyeio/duration.ParseISO8601`. -/
def parseWeekDuration (l : List Char) : Option Duration :=
  match l with
  | 'P' :: rest =>
    let ds := rest.takeWhile Char.isDigit
    if ds ≠ [] ∧ rest.dropWhile Char.isDigit = ['W'] then
      some { W := digitsVal ds }
    else none
  | _ => none

/-- `senseyeio/duration.ParseISO8601`: the week regex wins, then the full
regex, otherwise the `bad format` error (Go returns the zero duration
alongside it). Overflow of Go's `int` by a huge digit run is not modelled
(Lean `Nat` is unbounded); no claim depends on it. -/
def parseISO8601 (s : String) : Except String Duration :=
  match parseWeekDuration s.data with
  | some d => .ok d
  | none =>
    match parseFullDuration s.data with
    | some d => .ok d
    | none => .error "bad format"

example : parseISO8601 "PT1H2M3S" = .ok { TH := 1, TM := 2, TS := 3 } := rfl
example : parseISO8601 "P3W" = .ok { W := 3 } := rfl
example : parseISO8601 "P1Y2M3DT4H5M6S"
    = .ok { Y := 1, M := 2, D := 3, TH := 4, TM := 5, TS := 6 } := rfl
example : parseISO8601 "garbage" = .error "bad format" := rfl
example : parseISO8601 "P" = .ok {} := rfl

/-- Go `time.Time` as far as this program observes it: the civil fields a
successful RFC3339 parse determines, the zone offset in seconds and
whether the location is UTC. -/
structure GoTime where
  year : Nat
  month : Nat
  day : Nat
  hour : Nat
  minute : Nat
  second : Nat
  nanos : Nat
  offsetSeconds : Int
  isUTC : Bool
deriving DecidableEq

/-- Go's zero `time.Time`: January 1 of year 1, 00:00:00 UTC. -/
def zeroTime : GoTime := ⟨1, 1, 1, 0, 0, 0, 0, 0, true⟩

/-- Two decimal digits. -/
def digit2 : List Char → Option (Nat × List Char)
  | a :: b :: rest =>
    if a.isDigit ∧ b.isDigit then
      some ((a.toNat - 48) * 10 + (b.toNat - 48), rest)
    else none
  | _ => none

/-- Four decimal digits. -/
def digit4 : List Char → Option (Nat × List Char)
  | a :: b :: c :: d :: rest =>
    if a.isDigit ∧ b.isDigit ∧ c.isDigit ∧ d.isDigit then
      some ((((a.toNat - 48) * 10 + (b.toNat - 48)) * 10 + (c.toNat - 48)) * 10
        + (d.toNat - 48), rest)
    else none
  | _ => none

/-- One required literal character. -/
def expectChar (c : Char) : List Char → Option (List Char)
  | x :: rest => if x = c then some rest else none
  | [] => none

def isLeapYear (y : Nat) : Bool :=
  y % 4 == 0 && (y % 100 != 0 || y % 400 == 0)

def daysInMonth (y m : Nat) : Nat :=
  if m = 2 then (if isLeapYear y then 29 else 28)
  else if m = 4 ∨ m = 6 ∨ m = 9 ∨ m = 11 then 30
  else 31

/-- Optional fractional seconds `.\d+` after the seconds field (Go's
`time.Parse` accepts them even though the RFC3339 layout has none); the
first nine digits give the nanoseconds. Returns `none` when the dot is
not followed by a digit, mirroring Go's rejection. -/
def parseFrac : List Char → Option (Nat × List Char)
  | '.' :: rest =>
    let ds := rest.takeWhile Char.isDigit
    if ds = [] then none
    else
      some (digitsVal (ds.take 9) * 10 ^ (9 - (ds.take 9).length),
        rest.dropWhile Char.isDigit)
  | l => some (0, l)

/-- The zone suffix: `Z` for UTC or a numeric `±HH:MM` offset with the
hour below 24 and the minute below 60. -/
def parseZone : List Char → Option (Int × Bool × List Char)
  | 'Z' :: rest => some (0, true, rest)
  | '+' :: rest => do
    let (h, r) ← digit2 rest
    let r ← expectChar ':' r
    let (m, r) ← digit2 r
    if h ≤ 23 ∧ m ≤ 59 then some ((h * 3600 + m * 60 : Nat), false, r) else none
  | '-' :: rest => do
    let (h, r) ← digit2 rest
    let r ← expectChar ':' r
    let (m, r) ← digit2 r
    if h ≤ 23 ∧ m ≤ 59 then some (-((h * 3600 + m * 60 : Nat) : Int), false, r)
    else none
  | _ => none

/-- The RFC3339 shape `YYYY-MM-DDTHH:MM:SS[.fff](Z|±HH:MM)` with Go's
range checks on month, day (per month and leap year), hour, minute and
second. -/
def parseRFC3339Core (l : List Char) : Option GoTime := do
  let (y, l) ← digit4 l
  let l ← expectChar '-' l
  let (mo, l) ← digit2 l
  let l ← expectChar '-' l
  let (d, l) ← digit2 l
  let l ← expectChar 'T' l
  let (h, l) ← digit2 l
  let l ← expectChar ':' l
  let (mi, l) ← digit2 l
  let l ← expectChar ':' l
  let (sec, l) ← digit2 l
  let (ns, l) ← parseFrac l
  let (offs, utc, l) ← parseZone l
  if l = [] ∧ 1 ≤ mo ∧ mo ≤ 12 ∧ 1 ≤ d ∧ d ≤ daysInMonth y mo
      ∧ h ≤ 23 ∧ mi ≤ 59 ∧ sec ≤ 59 then
    some ⟨y, mo, d, h, mi, sec, ns, offs, utc⟩
  else none

/-- Model of Go `time.Parse(time.RFC3339, s)` (Go returns the zero
`time.Time` alongside the error). -/
def parseRFC3339 (s : String) : Except String GoTime :=
  match parseRFC3339Core s.data with
  | some t => .ok t
  | none => .error "cannot parse as RFC3339"

example : parseRFC3339 "2021-01-01T00:00:00Z" = .ok ⟨2021, 1, 1, 0, 0, 0, 0, 0, true⟩ := rfl
example : parseRFC3339 "2021-13-01T00:00:00Z" = .error "cannot parse as RFC3339" := rfl
example : parseRFC3339 "garbage" = .error "cannot parse as RFC3339" := rfl
example : parseRFC3339 "2021-06-05T01:02:03+09:00"
    = .ok ⟨2021, 6, 5, 1, 2, 3, 0, 32400, false⟩ := rfl

/-- Left-pad a number with zeros to `w` digits. -/
def padNat (w n : Nat) : String :=
  let s := Nat.repr n
  String.mk (List.replicate (w - s.length) '0') ++ s

/-- The `±HHMM` rendering of a zone offset used by `time.Time.String`. -/
def offsetString (offs : Int) : String :=
  let a := offs.natAbs
  (if offs < 0 then "-" else "+") ++ padNat 2 (a / 3600) ++ padNat 2 (a % 3600 / 60)

/-- Model of Go `time.Time.String()` (layout
`2006-01-02 15:04:05.999999999 -0700 MST`): fractional seconds only when
non-zero with trailing zeros trimmed; the zone name is `UTC` for UTC and
otherwise (a fixed zone created by an RFC3339 numeric offset has an empty
name) the numeric offset again. -/
def timeString (t : GoTime) : String :=
  padNat 4 t.year ++ "-" ++ padNat 2 t.month ++ "-" ++ padNat 2 t.day ++ " "
    ++ padNat 2 t.hour ++ ":" ++ padNat 2 t.minute ++ ":" ++ padNat 2 t.second
    ++ (if t.nanos = 0 then ""
        else "." ++ String.mk (((padNat 9 t.nanos).data.reverse.dropWhile
          (· = '0')).reverse))
    ++ " " ++ offsetString t.offsetSeconds ++ " "
    ++ (if t.isUTC then "UTC" else offsetString t.offsetSeconds)

example : timeString ⟨2021, 1, 1, 0, 0, 0, 0, 0, true⟩
    = "2021-01-01 00:00:00 +0000 UTC" := rfl
example : timeString zeroTime = "0001-01-01 00:00:00 +0000 UTC" := rfl

/-- The thumbnail entry of the provider record (`youtube.Thumbnail`). -/
structure Thumbnail where
  url : String
deriving DecidableEq

/-- The thumbnail set; the program reads only `High`. -/
structure ThumbnailDetails where
  high : Thumbnail
deriving DecidableEq

/-- The `snippet` part of the provider record, restricted to the fields
the program reads. -/
structure VideoSnippet where
  title : String
  publishedAt : String
  channelId : String
  channelTitle : String
  description : String
  thumbnails : ThumbnailDetails
deriving DecidableEq

/-- The `contentDetails` part of the provider record. -/
structure VideoContentDetails where
  duration : String
deriving DecidableEq

/-- One provider record (`youtube.Video`), restricted to the fields the
program reads. -/
structure VideoItem where
  id : String
  snippet : VideoSnippet
  contentDetails : VideoContentDetails
deriving DecidableEq

/-- The internal `recommend` record of `main.go`. -/
structure recommend where
  title : String
  URL : String
  imageURL : String
  channelName : String
  channelThumbnailURL : String
  channelURL : String
  description : String
  duration : Duration
  publishedAt : GoTime
deriving DecidableEq

/-- The metadata-mapping block of `messageHandler` (main.go lines
125-137): duration and publish time are parsed with the error discarded
(`x, _ := parse(...)`, which in Go leaves the zero value on failure), the
playback and channel URLs are built from fixed templates, and
`channelThumbnailURL` is left empty (the commented-out TODO line). -/
def mapMetadata (item : VideoItem) : recommend :=
  let dur := match parseISO8601 item.contentDetails.duration with
    | .ok d => d
    | .error _ => zeroDuration
  let publishedAt := match parseRFC3339 item.snippet.publishedAt with
    | .ok t => t
    | .error _ => zeroTime
  { title := item.snippet.title
    URL := "https://www.youtube.com/watch?v=" ++ item.id
    imageURL := item.snippet.thumbnails.high.url
    channelName := item.snippet.channelTitle
    channelThumbnailURL := ""
    channelURL := "https://www.youtube.com/channel/" ++ item.snippet.channelId
    description := item.snippet.description
    duration := dur
    publishedAt := publishedAt }

/-- One field of a Discord rich embed (`discordgo.MessageEmbedField`). -/
structure MessageEmbedField where
  name : String
  value : String
  inl : Bool
deriving DecidableEq

/-- The author block of a Discord rich embed. -/
structure MessageEmbedAuthor where
  name : String
  url : String
  iconURL : String
deriving DecidableEq

/-- A Discord rich embed (`discordgo.MessageEmbed`), restricted to the
fields this program sets; unset fields carry their Go zero value. -/
structure MessageEmbed where
  url : String
  title : String
  description : String
  timestamp : String
  color : Nat
  imageURL : String
  thumbnailURL : String
  author : MessageEmbedAuthor
  fields : List MessageEmbedField
deriving DecidableEq

/-- The embed `sendError` builds: title `ERROR`, the error text as body,
red accent, render-time timestamp, one field naming the requester by a
mention built from the author id. -/
def errorEmbed (now : String) (errMsg : String) (authorID : String) : MessageEmbed :=
  { url := ""
    title := "ERROR"
    description := errMsg
    timestamp := now
    color := 0xff0000
    imageURL := ""
    thumbnailURL := ""
    author := ⟨"", "", ""⟩
    fields := [⟨"コマンド送信者", "<@" ++ authorID ++ ">", false⟩] }

/-- The embed `sendRecommend` builds from a `recommend`: the five fields
in order are channel name, channel URL, publish time rendered by
`time.Time.String`, the duration as `{H}時間{M}分{S}秒`, and the
requester mention. -/
def recommendEmbed (now : String) (rec : recommend) (authorID : String) : MessageEmbed :=
  { url := rec.URL
    title := rec.title
    description := rec.description
    timestamp := now
    color := 0x00ff00
    imageURL := rec.imageURL
    thumbnailURL := ""
    author := ⟨rec.channelName, rec.channelURL, rec.channelThumbnailURL⟩
    fields := [
      ⟨"チャンネル名", rec.channelName, true⟩,
      ⟨"URL", rec.channelURL, true⟩,
      ⟨"公開日時", timeString rec.publishedAt, false⟩,
      ⟨"長さ", Nat.repr rec.duration.TH ++ "時間" ++ Nat.repr rec.duration.TM
        ++ "分" ++ Nat.repr rec.duration.TS ++ "秒", true⟩,
      ⟨"RECOMMENDED BY", "<@" ++ authorID ++ ">", false⟩] }

/-- The trigger literal (`command` constant of `main.go`). -/
def command : String := "!rec"

/-- The parts of a `discordgo.MessageCreate` the handler reads. -/
structure MessageCreate where
  authorBot : Bool
  authorID : String
  content : String

/-- `messageHandler` of `main.go` with its two external collaborators made
explicit: `fetch` stands for the YouTube `Videos.List(...).Id(id).Do()`
call (returning the item list or a transport error) and the returned
value stands for the embed handed to `ChannelMessageSendEmbed` (`none`
when the message is ignored). Bot authors, messages that do not split on
the space character into exactly two parts, and first parts other than
`!rec` are ignored; an extraction or fetch error and an item count other
than one yield error embeds; otherwise the mapped recommendation is
rendered. -/
def messageHandler (fetch : String → Except String (List VideoItem))
    (now : String) (m : MessageCreate) : Option MessageEmbed :=
  if m.authorBot then none
  else
    let commands := stringsSplit m.content ' '
    if commands.length ≠ 2 then none
    else if commands.getD 0 "" ≠ command then none
    else
      match getVideoID (commands.getD 1 "") with
      | .error e => some (errorEmbed now e m.authorID)
      | .ok videoID =>
        match fetch videoID with
        | .error e => some (errorEmbed now e m.authorID)
        | .ok items =>
          match items with
          | [item] => some (recommendEmbed now (mapMetadata item) m.authorID)
          | _ => some (errorEmbed now "Item not found" m.authorID)

/-- Split around every character satisfying `p`, keeping empty pieces. -/
def splitWhenChar (p : Char → Bool) : List Char → List (List Char)
  | [] => [[]]
  | c :: rest =>
    let r := splitWhenChar p rest
    if p c then [] :: r
    else
      match r with
      | h :: t => (c :: h) :: t
      | [] => [[c]]

/-- An ASCII whitespace character: space, tab, newline or carriage
return. -/
def isWhitespaceChar (c : Char) : Bool :=
  c = ' ' ∨ c = '\t' ∨ c = '\n' ∨ c = '\r'

/-- Following the spec's words, which phrase the dispatcher filter in
terms of "whitespace-delimited tokens": the tokens obtained by splitting
on whitespace characters and dropping empty pieces. Kept separate from
the source-modelled `stringsSplit`, which splits on the space character
only, so the two readings can be compared. -/
def specWhitespaceTokens (s : String) : List String :=
  ((splitWhenChar isWhitespaceChar s.data).filter (· ≠ [])).map String.mk

example : specWhitespaceTokens "!rec a\tb" = ["!rec", "a", "b"] := rfl
example : stringsSplit "!rec a\tb" ' ' = ["!rec", "a\tb"] := rfl

/-- The fixture provider record of the spec's success scenario: identifier
`abc123`, duration `PT1H2M3S`, publish time `2021-01-01T00:00:00Z`. -/
def fixtureItem : VideoItem :=
  { id := "abc123"
    snippet :=
      { title := "a video"
        publishedAt := "2021-01-01T00:00:00Z"
        channelId := "ch1"
        channelTitle := "a channel"
        description := "words"
        thumbnails := ⟨⟨"https://img.example/hq.jpg"⟩⟩ }
    contentDetails := ⟨"PT1H2M3S"⟩ }

/-- A fetch collaborator returning exactly the fixture record. -/
def fixtureFetch : String → Except String (List VideoItem) :=
  fun _ => .ok [fixtureItem]

/-- The scenario's incoming message: requester `u1`, not a bot. -/
def fixtureMsg : MessageCreate :=
  ⟨false, "u1", "!rec https://www.youtube.com/watch?v=abc123"⟩

/-- C1 (counterexample): in the success scenario the duration field of the
rendered card reads `1時間2分3秒` — the `%d時間%d分%d秒` format of
`sendRecommend` — and not the `1h2m3s` the claim states. -/
theorem c1_duration_field_counterexample :
    messageHandler fixtureFetch "2021-06-01T00:00:00Z" fixtureMsg
      = some (recommendEmbed "2021-06-01T00:00:00Z" (mapMetadata fixtureItem) "u1") ∧
    ((recommendEmbed "2021-06-01T00:00:00Z" (mapMetadata fixtureItem) "u1").fields.getD 3
      ⟨"", "", false⟩).value = "1時間2分3秒" ∧
    "1時間2分3秒" ≠ ("1h2m3s" : String) :=
  ⟨rfl, rfl, by decide⟩

/-- C1 (amended): in the success scenario the extractor yields `abc123`,
the mapper yields duration components (1,2,3) and exactly the published
timestamp 2021-01-01T00:00:00 UTC, and the rendered success card links
the watch URL, shows the duration as `1時間2分3秒` and ends with a field
mentioning requester `u1`. -/
theorem c1_scenario :
    getVideoID "https://www.youtube.com/watch?v=abc123" = .ok "abc123" ∧
    (mapMetadata fixtureItem).duration = { TH := 1, TM := 2, TS := 3 } ∧
    (mapMetadata fixtureItem).publishedAt = ⟨2021, 1, 1, 0, 0, 0, 0, 0, true⟩ ∧
    messageHandler fixtureFetch "2021-06-01T00:00:00Z" fixtureMsg
      = some (recommendEmbed "2021-06-01T00:00:00Z" (mapMetadata fixtureItem) "u1") ∧
    (recommendEmbed "2021-06-01T00:00:00Z" (mapMetadata fixtureItem) "u1").url
      = "https://www.youtube.com/watch?v=abc123" ∧
    ((recommendEmbed "2021-06-01T00:00:00Z" (mapMetadata fixtureItem) "u1").fields.getD 3
      ⟨"", "", false⟩).value = "1時間2分3秒" ∧
    ((recommendEmbed "2021-06-01T00:00:00Z" (mapMetadata fixtureItem) "u1").fields.getD 4
      ⟨"", "", false⟩).value = "<@u1>" ∧
    (recommendEmbed "2021-06-01T00:00:00Z" (mapMetadata fixtureItem) "u1").fields.length = 5 :=
  ⟨rfl, rfl, rfl, rfl, rfl, rfl, rfl, rfl⟩

/-- C2: whenever the text parses as a URL whose query carries a non-empty
`v` parameter, `getVideoID` succeeds with that parameter's value, whatever
the other URL components are. -/
theorem c2_query_param_wins (s : String) (u : URL)
    (hu : urlParse s = .ok u)
    (hv : valuesGet (parseQueryPairs u.rawQuery) "v" ≠ "") :
    getVideoID s = .ok (valuesGet (parseQueryPairs u.rawQuery) "v") := by
  unfold getVideoID
  rw [hu]
  simp [hv]

/-- C2 witness: the scenario URL evaluates as the theorem states. -/
theorem c2_witness :
    getVideoID "https://www.youtube.com/watch?v=abc123" = .ok "abc123" := by
  have h := c2_query_param_wins "https://www.youtube.com/watch?v=abc123"
    ⟨"v=abc123"⟩ rfl (by decide)
  exact h

/-- C3 (counterexample): `https://youtu.be/abc?v=zzz` begins with the
literal prefix, its remainder after the prefix is `abc?v=zzz`, yet
`getVideoID` returns `zzz` because the `v` query parameter is checked
first. -/
theorem c3_counterexample :
    List.isPrefixOf "https://youtu.be/".data "https://youtu.be/abc?v=zzz".data = true ∧
    String.mk (trimPfxList "https://youtu.be/".data "https://youtu.be/abc?v=zzz".data)
      = "abc?v=zzz" ∧
    getVideoID "https://youtu.be/abc?v=zzz" = .ok "zzz" ∧
    ("zzz" : String) ≠ "abc?v=zzz" :=
  ⟨rfl, rfl, rfl, by decide⟩

/-- C3 (amended): for text beginning with `https://youtu.be/` that parses
as a URL yielding no non-empty `v` query parameter, `getVideoID` succeeds
with the remainder of the string after that prefix. -/
theorem c3_trim_remainder (s : String) (u : URL)
    (hpfx : List.isPrefixOf "https://youtu.be/".data s.data = true)
    (hu : urlParse s = .ok u)
    (hv : valuesGet (parseQueryPairs u.rawQuery) "v" = "") :
    getVideoID s = .ok (String.mk (trimPfxList "https://youtu.be/".data s.data)) := by
  unfold getVideoID
  rw [hu]
  simp [hv, hpfx]

/-- C3 witness: a plain short-URL evaluates as the theorem states. -/
theorem c3_witness : getVideoID "https://youtu.be/abc" = .ok "abc" := by
  have h := c3_trim_remainder "https://youtu.be/abc" ⟨""⟩ rfl rfl rfl
  exact h

/-- C4: any text yielding no non-empty `v` query parameter and not
beginning with `https://youtu.be/` makes `getVideoID` fail, and the
dispatcher turns the input `!rec not-a-url` into an error card whose body
is exactly `URL Schema not valid`. -/
theorem c4_invalid_reference (s : String)
    (fetch : String → Except String (List VideoItem)) (now uid : String)
    (hv : ∀ u, urlParse s = .ok u → valuesGet (parseQueryPairs u.rawQuery) "v" = "")
    (hp : List.isPrefixOf "https://youtu.be/".data s.data = false) :
    (∃ e, getVideoID s = .error e) ∧
    messageHandler fetch now ⟨false, uid, "!rec not-a-url"⟩
      = some (errorEmbed now "URL Schema not valid" uid) := by
  constructor
  · unfold getVideoID
    cases hu : urlParse s with
    | error e => exact ⟨"Failed to parse URL : " ++ e, rfl⟩
    | ok u =>
      refine ⟨"URL Schema not valid", ?_⟩
      simp [hv u hu, hp]
  · rfl

/-- C4 witness: the non-URL text `oops` fails, and the `!rec not-a-url`
scenario produces the `URL Schema not valid` error card. -/
theorem c4_witness :
    (∃ e, getVideoID "oops" = .error e) ∧
    messageHandler (fun _ => .ok []) "t0" ⟨false, "u1", "!rec not-a-url"⟩
      = some (errorEmbed "t0" "URL Schema not valid" "u1") :=
  c4_invalid_reference "oops" (fun _ => .ok []) "t0" "u1"
    (fun u h => by injection h with h2; subst h2; rfl) (by decide)

/-- C5 (counterexample): the message `!rec a\tb` from a non-bot author has
three whitespace-delimited tokens, yet the dispatcher answers it with an
error card: the code splits on the space character only, so the tab
survives into the argument, where it is rejected as a control character
in the URL. -/
theorem c5_counterexample :
    (specWhitespaceTokens "!rec a\tb").length ≠ 2 ∧
    messageHandler (fun _ => .ok []) "t0" ⟨false, "u1", "!rec a\tb"⟩
      = some (errorEmbed "t0"
          "Failed to parse URL : net/url: invalid control character in URL" "u1") :=
  ⟨by decide, rfl⟩

/-- C5 (amended): a message from a bot author, or that does not split on
the space character into exactly two parts, or whose first part is not
`!rec`, produces no output at all. -/
theorem c5_ignored (fetch : String → Except String (List VideoItem))
    (now : String) (m : MessageCreate)
    (h : m.authorBot = true ∨ (stringsSplit m.content ' ').length ≠ 2 ∨
      (stringsSplit m.content ' ').getD 0 "" ≠ command) :
    messageHandler fetch now m = none := by
  unfold messageHandler
  rcases h with h | h | h
  · simp [h]
  · simp [h]
  · simp only [List.getD, List.get?_eq_getElem?] at h
    simp [h]

/-- C5 witness: a three-part message is ignored. -/
theorem c5_witness :
    messageHandler (fun _ => .ok []) "t0" ⟨false, "u1", "!rec a b"⟩ = none :=
  c5_ignored (fun _ => .ok []) "t0" ⟨false, "u1", "!rec a b"⟩
    (Or.inr (Or.inl (by decide)))

/-- C6: the mapper swallows parse failures — a duration string the
ISO-8601 parser rejects leaves the zero-valued duration in the
`recommend`, and a publish-time string the RFC3339 parser rejects leaves
the zero-value timestamp; `mapMetadata` itself is total and propagates no
error. -/
theorem c6_swallowed_parse_errors (item : VideoItem) :
    (∀ e, parseISO8601 item.contentDetails.duration = .error e →
      (mapMetadata item).duration = zeroDuration) ∧
    (∀ e, parseRFC3339 item.snippet.publishedAt = .error e →
      (mapMetadata item).publishedAt = zeroTime) := by
  constructor
  · intro e h
    simp [mapMetadata, h]
  · intro e h
    simp [mapMetadata, h]

/-- A provider record whose duration and publish-time strings are both
malformed. -/
def badItem : VideoItem :=
  { id := "x"
    snippet :=
      { title := ""
        publishedAt := "garbage"
        channelId := ""
        channelTitle := ""
        description := ""
        thumbnails := ⟨⟨""⟩⟩ }
    contentDetails := ⟨"garbage"⟩ }

/-- C6 witness: on a record with malformed duration and publish time the
mapper yields the zero duration and the zero timestamp. -/
theorem c6_witness :
    (mapMetadata badItem).duration = zeroDuration ∧
    (mapMetadata badItem).publishedAt = zeroTime :=
  ⟨(c6_swallowed_parse_errors badItem).1 "bad format" rfl,
   (c6_swallowed_parse_errors badItem).2 "cannot parse as RFC3339" rfl⟩

/-- C7: every `recommend` the mapper builds carries the watch URL template
applied to the record's id and the channel URL template applied to the
record's channel id, whatever the other fields hold. -/
theorem c7_url_templates (item : VideoItem) :
    (mapMetadata item).URL = "https://www.youtube.com/watch?v=" ++ item.id ∧
    (mapMetadata item).channelURL
      = "https://www.youtube.com/channel/" ++ item.snippet.channelId :=
  ⟨rfl, rfl⟩

/-- C8: the success card renders the recommendation's title, URL and
channel name/URL verbatim — the card title and main link equal
`rec.title` and `rec.URL`, and both the author block and the first two
fields carry `rec.channelName` and `rec.channelURL` unchanged. -/
theorem c8_verbatim_fields (rec : recommend) (uid now : String) :
    (recommendEmbed now rec uid).title = rec.title ∧
    (recommendEmbed now rec uid).url = rec.URL ∧
    (recommendEmbed now rec uid).author.name = rec.channelName ∧
    (recommendEmbed now rec uid).author.url = rec.channelURL ∧
    ((recommendEmbed now rec uid).fields.getD 0 ⟨"", "", false⟩).value = rec.channelName ∧
    ((recommendEmbed now rec uid).fields.getD 1 ⟨"", "", false⟩).value = rec.channelURL :=
  ⟨rfl, rfl, rfl, rfl, rfl, rfl⟩

/-- C9: when the command passes the filter and the extractor, and the
fetch returns zero records, the dispatcher sends an error card whose body
is exactly `Item not found`, with the fixed shape: title `ERROR`, red
accent, a single field mentioning the requester. -/
theorem c9_item_not_found (fetch : String → Except String (List VideoItem))
    (now tok vid : String) (m : MessageCreate)
    (hbot : m.authorBot = false)
    (hsplit : stringsSplit m.content ' ' = [command, tok])
    (hvid : getVideoID tok = .ok vid)
    (hfetch : fetch vid = .ok []) :
    messageHandler fetch now m = some (errorEmbed now "Item not found" m.authorID) ∧
    (errorEmbed now "Item not found" m.authorID).title = "ERROR" ∧
    (errorEmbed now "Item not found" m.authorID).color = 0xff0000 ∧
    (errorEmbed now "Item not found" m.authorID).description = "Item not found" ∧
    (errorEmbed now "Item not found" m.authorID).fields
      = [⟨"コマンド送信者", "<@" ++ m.authorID ++ ">", false⟩] := by
  refine ⟨?_, rfl, rfl, rfl, rfl⟩
  unfold messageHandler
  simp [hbot, hsplit, hvid, hfetch]

/-- C9 witness: a well-formed command whose fetch returns no items yields
the `Item not found` error card. -/
theorem c9_witness :
    messageHandler (fun _ => .ok []) "t0" ⟨false, "u1", "!rec https://youtu.be/x"⟩
      = some (errorEmbed "t0" "Item not found" "u1") :=
  (c9_item_not_found (fun _ => .ok []) "t0" "https://youtu.be/x" "x"
    ⟨false, "u1", "!rec https://youtu.be/x"⟩ rfl rfl rfl rfl).1

/-- C10: the bare prefix `https://youtu.be/` — nothing after it and no `v`
query parameter — makes `getVideoID` succeed with the empty identifier
rather than fail. -/
theorem c10_bare_short_url : getVideoID "https://youtu.be/" = .ok "" := rfl
